import Mathlib

/-!
Verification of the aligned_layer batcher client core: a shallow embedding of
the commitment engine, Merkle leaf/parent hashing, client-message signing, the
CLI argument-to-`VerificationData` construction, and the on-chain verifier call
assembly, translated from the Rust sources
(`batcher/aligned-batcher-lib/src/types/mod.rs` and
`batcher/aligned/src/main.rs`).

Bytes are modelled as `List Nat`; Keccak-256 is out of scope for the program
(treated as a given primitive), so every definition is parameterised by a hash
function `H : Bytes → Bytes`, and the ECDSA-style sign/recover primitive is
parameterised as a `SignatureScheme` record. Sequential `hasher.update` calls
followed by `finalize` are modelled as hashing the concatenation of the
updates, which is exactly the streaming semantics of Keccak.
-/

namespace Aligned

/-- A byte sequence (each entry one byte). -/
abbrev Bytes := List Nat

/-- The 32 zero bytes to which an absent optional field commits. -/
def zeros32 : Bytes := List.replicate 32 0

/-- Translation of `ProvingSystemId` from `types/mod.rs`: the closed set of supported proving
systems. -/
inductive ProvingSystemId where
  | GnarkPlonkBls12_381
  | GnarkPlonkBn254
  | Groth16Bn254
  | SP1
  | Halo2KZG
  | Halo2IPA
deriving DecidableEq, Repr

/-- Translation of `VerificationData` from `types/mod.rs`: the client's submission record.
`proof_generator_addr` is an `Address` in Rust (20 bytes), modelled as a byte
sequence. -/
structure VerificationData where
  proving_system : ProvingSystemId
  proof : Bytes
  pub_input : Option Bytes
  verification_key : Option Bytes
  vm_program_code : Option Bytes
  proof_generator_addr : Bytes
deriving DecidableEq, Repr

/-- Translation of `VerificationDataCommitment` from `types/mod.rs`: four fixed-size digests
standing in for a `VerificationData`. -/
structure VerificationDataCommitment where
  proof_commitment : Bytes
  pub_input_commitment : Bytes
  proving_system_aux_data_commitment : Bytes
  proof_generator_addr : Bytes
deriving DecidableEq, Repr

/-- The `From<VerificationData> for VerificationDataCommitment` conversion of
`types/mod.rs` (lines 45-84), parameterised by the Keccak-256 primitive `H`.
The Rust body initialises `pub_input_commitment` and
`proving_system_aux_data_commitment` to 32 zero bytes and conditionally
overwrites them; the `debug_assert_eq!(proving_system, SP1)` guarding the
`vm_program_code` branch is compiled out of release builds and asserts rather
than returns, so the conversion itself is total and is modelled as such. -/
def VerificationDataCommitment.fromData (H : Bytes → Bytes)
    (verification_data : VerificationData) : VerificationDataCommitment :=
  let proof_commitment := H verification_data.proof
  let pub_input_commitment :=
    match verification_data.pub_input with
    | some pub_input => H pub_input
    | none => zeros32
  let proving_system_aux_data_commitment :=
    match verification_data.vm_program_code with
    | some vm_program_code => H vm_program_code
    | none =>
      match verification_data.verification_key with
      | some verification_key => H verification_key
      | none => zeros32
  { proof_commitment := proof_commitment
    pub_input_commitment := pub_input_commitment
    proving_system_aux_data_commitment := proving_system_aux_data_commitment
    proof_generator_addr := verification_data.proof_generator_addr }

/-- A concrete executable stand-in hash used only to instantiate witnesses and
counterexamples: it is injective enough for the concrete inputs used and maps
the empty sequence away from 32 zero bytes. -/
def toyHash (l : Bytes) : Bytes :=
  (l.length + 1) :: (l ++ List.replicate 31 0).take 31

/-- C1: the commitment conversion hashes `proof`, hashes `pub_input` when
present and commits to 32 zero bytes when absent (distinct from the hash of
the empty sequence whenever `H` separates them), commits the auxiliary field
to the hash of `vm_program_code` when present, else the hash of
`verification_key` when present, else 32 zero bytes, and copies
`proof_generator_addr` verbatim. -/
theorem commit_field_spec (H : Bytes → Bytes) (v : VerificationData) :
    (VerificationDataCommitment.fromData H v).proof_commitment = H v.proof
    ∧ (VerificationDataCommitment.fromData H v).pub_input_commitment =
        (match v.pub_input with
         | some p => H p
         | none => List.replicate 32 0)
    ∧ (VerificationDataCommitment.fromData H v).proving_system_aux_data_commitment =
        (match v.vm_program_code with
         | some c => H c
         | none =>
           match v.verification_key with
           | some k => H k
           | none => List.replicate 32 0)
    ∧ (VerificationDataCommitment.fromData H v).proof_generator_addr =
        v.proof_generator_addr
    ∧ (v.pub_input = none → H [] ≠ List.replicate 32 0 →
        (VerificationDataCommitment.fromData H v).pub_input_commitment ≠ H []) := by
  refine ⟨rfl, rfl, rfl, rfl, ?_⟩
  intro hnone hne
  simp [VerificationDataCommitment.fromData, zeros32, hnone]
  exact fun h => hne h.symm

/-- Witness for C1 at a concrete input with `pub_input = none`. -/
theorem commit_field_spec_witness :
    (VerificationDataCommitment.fromData toyHash
      { proving_system := ProvingSystemId.SP1
        proof := [1, 2, 3]
        pub_input := none
        verification_key := none
        vm_program_code := some [9, 9]
        proof_generator_addr := List.replicate 20 0 }).pub_input_commitment ≠ toyHash [] :=
  (commit_field_spec toyHash _).2.2.2.2 rfl (by decide)

/-! ## Merkle batch tree backend (`VerificationCommitmentBatch`, types/mod.rs 86-109) -/

namespace VerificationCommitmentBatch

/-- Translation of `VerificationCommitmentBatch::hash_data` (types/mod.rs 93-101): the leaf
hash updates the hasher with the four commitment fields in order and
finalises, i.e. hashes their concatenation. -/
def hash_data (H : Bytes → Bytes) (leaf : VerificationDataCommitment) : Bytes :=
  H (leaf.proof_commitment ++ leaf.pub_input_commitment ++
     leaf.proving_system_aux_data_commitment ++ leaf.proof_generator_addr)

/-- Translation of `VerificationCommitmentBatch::hash_new_parent` (types/mod.rs 103-108):
hashes the concatenation of the two children. -/
def hash_new_parent (H : Bytes → Bytes) (child_1 child_2 : Bytes) : Bytes :=
  H (child_1 ++ child_2)

end VerificationCommitmentBatch

/-- Modelled from the spec: one level of the standard bottom-up binary Merkle
construction (§4.2) — the tree builder itself lives in the external
`lambdaworks_crypto::merkle_tree` crate, not under this repository's sources;
adjacent nodes are paired left-to-right and a trailing lone node is carried up
unchanged (the spec leaves the odd-count rule open; it is irrelevant to the
even-count claims proved below). -/
def levelUp (H : Bytes → Bytes) : List Bytes → List Bytes
  | a :: b :: rest => VerificationCommitmentBatch.hash_new_parent H a b :: levelUp H rest
  | l => l

theorem levelUp_length_le (H : Bytes → Bytes) (l : List Bytes) :
    (levelUp H l).length ≤ l.length := by
  match l with
  | [] => simp [levelUp]
  | [a] => simp [levelUp]
  | a :: b :: rest =>
    have ih := levelUp_length_le H rest
    simp only [levelUp, List.length_cons]
    omega

/-- Modelled from the spec: the root of the bottom-up binary Merkle
construction over a list of nodes (§4.2); the builder lives in the external
`lambdaworks_crypto` crate. An empty batch has no meaningful root and is
mapped to 32 zero bytes. -/
def rootFromNodes (H : Bytes → Bytes) : List Bytes → Bytes
  | [] => zeros32
  | [n] => n
  | a :: b :: rest => rootFromNodes H (levelUp H (a :: b :: rest))
termination_by l => l.length
decreasing_by
  have := levelUp_length_le H rest
  simp only [levelUp, List.length_cons]
  omega

/-- Modelled from the spec: the batch Merkle root over an ordered sequence of
commitments — leaves are hashed with `hash_data`, then levels are combined
with `hash_new_parent` (§4.2). -/
def batchMerkleRoot (H : Bytes → Bytes) (leaves : List VerificationDataCommitment) : Bytes :=
  rootFromNodes H (leaves.map (VerificationCommitmentBatch.hash_data H))

/-- C2: the leaf hash is the hash of the four commitment fields concatenated
in order `proof_commitment ‖ pub_input_commitment ‖
proving_system_aux_data_commitment ‖ proof_generator_addr`, the parent hash is
the hash of `left ‖ right`, and consequently the 2-leaf batch tree over
`L0, L1` has root `H (hash_data L0 ‖ hash_data L1)`. -/
theorem hash_data_hash_new_parent_spec (H : Bytes → Bytes)
    (leaf : VerificationDataCommitment) (left right : Bytes)
    (L0 L1 : VerificationDataCommitment) :
    VerificationCommitmentBatch.hash_data H leaf =
      H (leaf.proof_commitment ++ leaf.pub_input_commitment ++
         leaf.proving_system_aux_data_commitment ++ leaf.proof_generator_addr)
    ∧ VerificationCommitmentBatch.hash_new_parent H left right = H (left ++ right)
    ∧ batchMerkleRoot H [L0, L1] =
        H (VerificationCommitmentBatch.hash_data H L0 ++
           VerificationCommitmentBatch.hash_data H L1) := by
  refine ⟨rfl, rfl, ?_⟩
  simp [batchMerkleRoot, rootFromNodes, levelUp, VerificationCommitmentBatch.hash_new_parent]

/-! ## Message authentication (`ClientMessage`, types/mod.rs 149-175) -/

/-- The ECDSA-style recoverable-signature primitive, out of scope for this
core (spec §1) and therefore modelled as an abstract scheme: `sign` over a
message, fallible `recover` of an address (Rust's `Signature::recover` returns
`Result`), boolean `verify` against an address (Rust's `Signature::verify`
returns `Result<()>`), and the address derived from a signing key. -/
structure SignatureScheme (Key Sig Addr : Type) where
  sign : Key → Bytes → Sig
  recover : Sig → Bytes → Option Addr
  verify : Sig → Bytes → Addr → Bool
  addressOf : Key → Addr

/-- Translation of `SignatureError` from ethers, as surfaced by `verify_signature`. -/
inductive SignatureError where
  | VerificationError
deriving DecidableEq, Repr

/-- Translation of `ClientMessage` from `types/mod.rs` 149-153. -/
structure ClientMessage (Sig : Type) where
  verification_data : VerificationData
  signature : Sig

/-- Translation of `ClientMessage::new` (types/mod.rs 158-166): hashes the leaf of the
commitment of `verification_data` and signs that digest (the wallet's
`sign_message` primitive applied to the 32-byte leaf digest). -/
def ClientMessage.new {Key Sig Addr : Type} (H : Bytes → Bytes)
    (S : SignatureScheme Key Sig Addr) (verification_data : VerificationData)
    (wallet : Key) : ClientMessage Sig :=
  let hashed_leaf := VerificationCommitmentBatch.hash_data H
    (VerificationDataCommitment.fromData H verification_data)
  { verification_data := verification_data
    signature := S.sign wallet hashed_leaf }

/-- Translation of `ClientMessage::verify_signature` (types/mod.rs 168-175): recomputes the
leaf digest, recovers an address with `self.signature.recover(hashed_leaf)
.unwrap()` — a panic when recovery fails, modelled as `none` — then verifies
the signature against the recovered address, propagating a `SignatureError` on
failure, and returns the recovered address. -/
def ClientMessage.verify_signature {Key Sig Addr : Type} (H : Bytes → Bytes)
    (S : SignatureScheme Key Sig Addr) (m : ClientMessage Sig) :
    Option (Except SignatureError Addr) :=
  let hashed_leaf := VerificationCommitmentBatch.hash_data H
    (VerificationDataCommitment.fromData H m.verification_data)
  match S.recover m.signature hashed_leaf with
  | none => none
  | some recovered =>
    if S.verify m.signature hashed_leaf recovered then
      some (Except.ok recovered)
    else
      some (Except.error SignatureError.VerificationError)

/-- C3: `ClientMessage::new` leaves `verification_data` unchanged and signs
exactly the leaf digest `hash_data (commit v)` — the same 32-byte digest that
becomes the Merkle leaf for `v`. -/
theorem clientMessage_new_spec {Key Sig Addr : Type} (H : Bytes → Bytes)
    (S : SignatureScheme Key Sig Addr) (v : VerificationData) (k : Key) :
    (ClientMessage.new H S v k).verification_data = v
    ∧ (ClientMessage.new H S v k).signature =
        S.sign k (VerificationCommitmentBatch.hash_data H
          (VerificationDataCommitment.fromData H v)) :=
  ⟨rfl, rfl⟩

/-- A concrete executable signature scheme used to instantiate witnesses and
counterexamples: a signature is the signing key paired with the signed digest
(or `none`, standing for a malformed 65-byte signature on which ethers'
`Signature::recover` fails). It satisfies the correctness and digest-binding
assumptions of an ideal recoverable-signature primitive. -/
def toyScheme : SignatureScheme Nat (Option (Nat × Bytes)) Nat where
  sign := fun k m => some (k, m)
  recover := fun s mq =>
    match s with
    | none => none
    | some (k, m) => if mq = m then some k else none
  verify := fun s mq a =>
    match s with
    | none => false
    | some (k, m) => mq == m && a == k
  addressOf := fun k => k

/-- A sample SP1 submission used as concrete input for witnesses and
counterexamples. -/
def sampleSP1Data : VerificationData :=
  { proving_system := ProvingSystemId.SP1
    proof := [1, 2, 3]
    pub_input := none
    verification_key := none
    vm_program_code := some [9, 9]
    proof_generator_addr := List.replicate 20 0 }

/-- The value `sampleSP1Data` with only the proving-system tag changed. -/
def sampleRetagged : VerificationData :=
  { sampleSP1Data with proving_system := ProvingSystemId.Groth16Bn254 }

theorem toyScheme_recover_sign (k : Nat) (m : Bytes) :
    toyScheme.recover (toyScheme.sign k m) m = some (toyScheme.addressOf k) := by
  simp [toyScheme]

theorem toyScheme_verify_sign (k : Nat) (m : Bytes) :
    toyScheme.verify (toyScheme.sign k m) m (toyScheme.addressOf k) = true := by
  simp [toyScheme]

theorem toyScheme_binding (k : Nat) (m mq : Bytes) (a : Nat)
    (hr : toyScheme.recover (toyScheme.sign k m) mq = some a)
    (_ : toyScheme.verify (toyScheme.sign k m) mq a = true)
    (_ : a = toyScheme.addressOf k) : mq = m := by
  simp only [toyScheme] at hr
  by_cases h : mq = m
  · exact h
  · simp [h] at hr

/-- C4 counterexample: tampering with the `proving_system` field after signing
leaves the leaf digest unchanged, so `verify_signature` still succeeds and
still recovers the original signer's address — it neither recovers a different
address nor fails. -/
theorem verify_tampered_same_address :
    sampleRetagged ≠ sampleSP1Data
    ∧ ClientMessage.verify_signature toyHash toyScheme
        { ClientMessage.new toyHash toyScheme sampleSP1Data 7 with
          verification_data := sampleRetagged }
      = some (Except.ok (toyScheme.addressOf 7)) := by
  refine ⟨by decide, ?_⟩
  rfl

/-- C4 amended: for a correct, digest-binding signature scheme, a message
obtained by replacing the signed `verification_data` `v` with `v'` passes
`verify_signature` with the original signer's address exactly when `v'` has
the same leaf digest as `v`. Taking `v' = v` gives the round trip
(`verify_signature (new v k)` recovers `addressOf k`); a tampering that
changes the leaf digest recovers a different address or fails; and a
tampering that preserves the digest — such as changing only `proving_system`
— is accepted unchanged. -/
theorem verify_tampered_spec {Key Sig Addr : Type} (H : Bytes → Bytes)
    (S : SignatureScheme Key Sig Addr)
    (hrec : ∀ k m, S.recover (S.sign k m) m = some (S.addressOf k))
    (hver : ∀ k m, S.verify (S.sign k m) m (S.addressOf k) = true)
    (hbind : ∀ k m mq a, S.recover (S.sign k m) mq = some a →
      S.verify (S.sign k m) mq a = true → a = S.addressOf k → mq = m)
    (v vq : VerificationData) (k : Key) :
    ClientMessage.verify_signature H S
      { ClientMessage.new H S v k with verification_data := vq }
      = some (Except.ok (S.addressOf k))
    ↔ VerificationCommitmentBatch.hash_data H (VerificationDataCommitment.fromData H vq)
      = VerificationCommitmentBatch.hash_data H (VerificationDataCommitment.fromData H v) := by
  set m := VerificationCommitmentBatch.hash_data H (VerificationDataCommitment.fromData H v)
  set mq := VerificationCommitmentBatch.hash_data H (VerificationDataCommitment.fromData H vq)
  show (match S.recover (S.sign k m) mq with
    | none => none
    | some recovered =>
      if S.verify (S.sign k m) mq recovered then
        some (Except.ok recovered)
      else
        some (Except.error SignatureError.VerificationError))
      = some (Except.ok (S.addressOf k)) ↔ mq = m
  constructor
  · intro hok
    cases hr : S.recover (S.sign k m) mq with
    | none => simp [hr] at hok
    | some a =>
      rw [hr] at hok
      by_cases hv : S.verify (S.sign k m) mq a = true
      · simp only [hv, if_true] at hok
        have ha : a = S.addressOf k := by simpa using hok
        exact hbind k m mq a hr hv ha
      · simp [hv] at hok
  · intro heq
    rw [heq, hrec k m]
    simp [hver k m]

/-- Witness for C4's amended theorem: the untampered round trip at a concrete
input recovers exactly the signer's address. -/
theorem verify_tampered_spec_witness :
    ClientMessage.verify_signature toyHash toyScheme
      { ClientMessage.new toyHash toyScheme sampleSP1Data 7 with
        verification_data := sampleSP1Data }
      = some (Except.ok (toyScheme.addressOf 7)) :=
  (verify_tampered_spec toyHash toyScheme toyScheme_recover_sign toyScheme_verify_sign
    toyScheme_binding sampleSP1Data sampleSP1Data 7).mpr rfl

/-- C5: at a message whose signature fails recovery, `verify_signature`
panics — `self.signature.recover(hashed_leaf).unwrap()` unwraps the failed
recovery (modelled as `none`) instead of returning a `SignatureError` to the
caller. -/
theorem verify_signature_panics_on_recovery_failure :
    ClientMessage.verify_signature toyHash toyScheme
      { verification_data := sampleSP1Data, signature := none }
      = none := rfl

/-- C10: two `VerificationData` values agreeing on `proof`, `pub_input`,
`verification_key`, `vm_program_code` and `proof_generator_addr` — whatever
their `proving_system` tags — yield identical commitments, identical Merkle
leaf digests, and identical signatures from `ClientMessage::new`: the
proving-system tag is not bound by the commitment or the signature. -/
theorem commit_ignores_proving_system (H : Bytes → Bytes) (v1 v2 : VerificationData)
    (hp : v1.proof = v2.proof) (hi : v1.pub_input = v2.pub_input)
    (hk : v1.verification_key = v2.verification_key)
    (hc : v1.vm_program_code = v2.vm_program_code)
    (ha : v1.proof_generator_addr = v2.proof_generator_addr) :
    VerificationDataCommitment.fromData H v1 = VerificationDataCommitment.fromData H v2
    ∧ VerificationCommitmentBatch.hash_data H (VerificationDataCommitment.fromData H v1)
      = VerificationCommitmentBatch.hash_data H (VerificationDataCommitment.fromData H v2)
    ∧ ∀ {Key Sig Addr : Type} (S : SignatureScheme Key Sig Addr) (k : Key),
        (ClientMessage.new H S v1 k).signature = (ClientMessage.new H S v2 k).signature := by
  have hcomm : VerificationDataCommitment.fromData H v1
      = VerificationDataCommitment.fromData H v2 := by
    simp [VerificationDataCommitment.fromData, hp, hi, hk, hc, ha]
  refine ⟨hcomm, by rw [hcomm], ?_⟩
  intro Key Sig Addr S k
  simp [ClientMessage.new, hcomm]

/-- Witness for C10: two concrete values differing only in the proving-system
tag commit identically. -/
theorem commit_ignores_proving_system_witness :
    sampleRetagged.proving_system ≠ sampleSP1Data.proving_system
    ∧ VerificationDataCommitment.fromData toyHash sampleRetagged
      = VerificationDataCommitment.fromData toyHash sampleSP1Data :=
  ⟨by decide,
   (commit_ignores_proving_system toyHash sampleRetagged sampleSP1Data
     rfl rfl rfl rfl rfl).1⟩

/-- A sample submission with BOTH auxiliary sources populated — ill-formed
per the spec's exactly-one rule. -/
def sampleBothAux : VerificationData :=
  { proving_system := ProvingSystemId.SP1
    proof := [1]
    pub_input := none
    verification_key := some [4, 5]
    vm_program_code := some [9, 9]
    proof_generator_addr := List.replicate 20 0 }

/-- C6 counterexample: the commitment conversion does not reject an input in
which both `vm_program_code` and `verification_key` are populated — it is an
infallible `From` conversion, and at this concrete ill-formed input it returns
exactly the commitment of the corresponding well-formed input with
`verification_key` stripped: the extra field is silently ignored, with no
error and (for `proving_system = SP1`) no assertion even in debug builds. -/
theorem commit_accepts_both_aux :
    sampleBothAux.vm_program_code ≠ none
    ∧ sampleBothAux.verification_key ≠ none
    ∧ VerificationDataCommitment.fromData toyHash sampleBothAux
      = VerificationDataCommitment.fromData toyHash
          { sampleBothAux with verification_key := none } := by
  refine ⟨by decide, by decide, ?_⟩
  rfl

/-- C6 amended: the conversion is total and never rejects. Whenever
`vm_program_code` is present it takes precedence: the auxiliary commitment is
its hash and `verification_key` is silently ignored (the result coincides with
that of the same input with `verification_key` absent), whatever the proving
system; the `proving_system = SP1` consistency check exists only as a
`debug_assert_eq!`, absent from release builds, and the both-populated case is
never checked at all. -/
theorem commit_vm_program_precedence (H : Bytes → Bytes) (v : VerificationData)
    (c : Bytes) (hc : v.vm_program_code = some c) :
    (VerificationDataCommitment.fromData H v).proving_system_aux_data_commitment = H c
    ∧ VerificationDataCommitment.fromData H v
      = VerificationDataCommitment.fromData H { v with verification_key := none } := by
  constructor
  · simp [VerificationDataCommitment.fromData, hc]
  · simp [VerificationDataCommitment.fromData, hc]

/-- Witness for C6's amended theorem at the concrete ill-formed input. -/
theorem commit_vm_program_precedence_witness :
    (VerificationDataCommitment.fromData toyHash sampleBothAux).proving_system_aux_data_commitment
      = toyHash [9, 9] :=
  (commit_vm_program_precedence toyHash sampleBothAux [9, 9] rfl).1

/-! ## On-chain verifier call (`main.rs`, VerifyProofOnchain arm, lines 172-222) -/

/-- The `merkle_path` of a lambdaworks `Proof<[u8; 32]>`: the ordered sibling
digests from leaf to root, as persisted inside `AlignedVerificationData`. -/
structure BatchInclusionProof where
  merkle_path : List Bytes
deriving DecidableEq, Repr

/-- Modelled from the spec: `AlignedVerificationData` (§3) — the persisted
join of a `VerificationDataCommitment` with the received batch root, inclusion
proof and index; its defining module (`aligned-sdk`'s `models`) is not among
the visible sources, only its use in `main.rs`. -/
structure AlignedVerificationData where
  verification_data_commitment : VerificationDataCommitment
  batch_merkle_root : Bytes
  batch_inclusion_proof : BatchInclusionProof
  index_in_batch : Nat
deriving DecidableEq, Repr

/-- The argument record of the read-only contract call
`verify_batch_inclusion`, fields in the exact positional order of the call in
`main.rs` lines 202-210. -/
structure VerifyBatchInclusionCall where
  proof_commitment : Bytes
  pub_input_commitment : Bytes
  proving_system_aux_data_commitment : Bytes
  proof_generator_addr : Bytes
  batch_merkle_root : Bytes
  merkle_proof : Bytes
  index_in_batch : Nat
deriving DecidableEq, Repr

/-- The `VerifyProofOnchain` arm of `main` (main.rs 184-210): flattens the
persisted inclusion proof by concatenating its sibling digests
(`merkle_path.into_iter().flatten().collect()`) and assembles the
`verify_batch_inclusion` call from the persisted fields, applying no hash
anywhere (the definition takes no hash parameter: nothing is recomputed). -/
def verifyProofOnchainCall (aligned_verification_data : AlignedVerificationData) :
    VerifyBatchInclusionCall :=
  let merkle_proof : Bytes :=
    aligned_verification_data.batch_inclusion_proof.merkle_path.flatten
  let verification_data_comm := aligned_verification_data.verification_data_commitment
  { proof_commitment := verification_data_comm.proof_commitment
    pub_input_commitment := verification_data_comm.pub_input_commitment
    proving_system_aux_data_commitment :=
      verification_data_comm.proving_system_aux_data_commitment
    proof_generator_addr := verification_data_comm.proof_generator_addr
    batch_merkle_root := aligned_verification_data.batch_merkle_root
    merkle_proof := merkle_proof
    index_in_batch := aligned_verification_data.index_in_batch }

/-- C7: the on-chain call is assembled with the seven arguments in exactly the
order `(proof_commitment, pub_input_commitment,
proving_system_aux_data_commitment, proof_generator_addr, batch_merkle_root,
flattened_proof, index_in_batch)`, where the flattened proof is the
left-to-right concatenation (right fold with append) of the sibling digests in
path order, and every argument is copied from the persisted record — no hash
function is involved, so no part of the Merkle tree is recomputed. -/
theorem verifyProofOnchainCall_spec (a : AlignedVerificationData) :
    verifyProofOnchainCall a =
      { proof_commitment := a.verification_data_commitment.proof_commitment
        pub_input_commitment := a.verification_data_commitment.pub_input_commitment
        proving_system_aux_data_commitment :=
          a.verification_data_commitment.proving_system_aux_data_commitment
        proof_generator_addr := a.verification_data_commitment.proof_generator_addr
        batch_merkle_root := a.batch_merkle_root
        merkle_proof :=
          a.batch_inclusion_proof.merkle_path.foldr (fun digest acc => digest ++ acc) []
        index_in_batch := a.index_in_batch }
    ∧ ∀ (digest : Bytes) (rest : List Bytes),
        (verifyProofOnchainCall
          { a with batch_inclusion_proof := { merkle_path := digest :: rest } }).merkle_proof
        = digest ++ (verifyProofOnchainCall
            { a with batch_inclusion_proof := { merkle_path := rest } }).merkle_proof := by
  constructor
  · simp only [verifyProofOnchainCall]
    congr 1
    induction a.batch_inclusion_proof.merkle_path with
    | nil => rfl
    | cons d rest ih => simp [List.flatten, ih]
  · intro digest rest
    simp [verifyProofOnchainCall]

/-! ## Proving-system tag parsing (`parse_proving_system`, types/mod.rs 137-147) -/

/-- The error of `parse_proving_system` (an `anyhow` error in Rust whose
message names the invalid tag). -/
inductive ParseError where
  | InvalidProvingSystem (tag : String)
deriving DecidableEq, Repr

/-- Translation of `parse_proving_system` (types/mod.rs 137-147): a pure string match over
the six recognised tags, in the source's arm order, falling through to the
invalid-proving-system error; it performs no I/O and no network activity. -/
def parse_proving_system (proving_system : String) : Except ParseError ProvingSystemId :=
  if proving_system = "GnarkPlonkBls12_381" then Except.ok ProvingSystemId.GnarkPlonkBls12_381
  else if proving_system = "GnarkPlonkBn254" then Except.ok ProvingSystemId.GnarkPlonkBn254
  else if proving_system = "Groth16Bn254" then Except.ok ProvingSystemId.Groth16Bn254
  else if proving_system = "SP1" then Except.ok ProvingSystemId.SP1
  else if proving_system = "Halo2IPA" then Except.ok ProvingSystemId.Halo2IPA
  else if proving_system = "Halo2KZG" then Except.ok ProvingSystemId.Halo2KZG
  else Except.error (ParseError.InvalidProvingSystem proving_system)

/-- The tag string canonically naming each proving system. -/
def tagOf : ProvingSystemId → String
  | ProvingSystemId.GnarkPlonkBls12_381 => "GnarkPlonkBls12_381"
  | ProvingSystemId.GnarkPlonkBn254 => "GnarkPlonkBn254"
  | ProvingSystemId.Groth16Bn254 => "Groth16Bn254"
  | ProvingSystemId.SP1 => "SP1"
  | ProvingSystemId.Halo2KZG => "Halo2KZG"
  | ProvingSystemId.Halo2IPA => "Halo2IPA"

/-- The closed set of recognised tag strings. -/
def provingSystemTags : List String :=
  ["GnarkPlonkBls12_381", "GnarkPlonkBn254", "Groth16Bn254", "SP1", "Halo2KZG", "Halo2IPA"]

/-- C8: `parse_proving_system` succeeds exactly on the six recognised tags,
the variant returned matches the tag, and every other string is rejected with
an invalid-proving-system error naming that string; the function is pure, so
rejection involves no network activity. -/
theorem parse_proving_system_spec (s : String) :
    ((parse_proving_system s).isOk ↔ s ∈ provingSystemTags)
    ∧ (∀ p, parse_proving_system s = Except.ok p → tagOf p = s)
    ∧ (s ∉ provingSystemTags →
        parse_proving_system s = Except.error (ParseError.InvalidProvingSystem s)) := by
  by_cases h1 : s = "GnarkPlonkBls12_381"
  · subst h1
    refine ⟨iff_of_true rfl (by decide), ?_, fun hn => absurd (by decide) hn⟩
    intro p hp
    have h : (Except.ok ProvingSystemId.GnarkPlonkBls12_381 : Except ParseError ProvingSystemId) = Except.ok p := by rw [← hp]; rfl
    injection h with h
    rw [← h]
    rfl
  by_cases h2 : s = "GnarkPlonkBn254"
  · subst h2
    refine ⟨iff_of_true rfl (by decide), ?_, fun hn => absurd (by decide) hn⟩
    intro p hp
    have h : (Except.ok ProvingSystemId.GnarkPlonkBn254 : Except ParseError ProvingSystemId) = Except.ok p := by rw [← hp]; rfl
    injection h with h
    rw [← h]
    rfl
  by_cases h3 : s = "Groth16Bn254"
  · subst h3
    refine ⟨iff_of_true rfl (by decide), ?_, fun hn => absurd (by decide) hn⟩
    intro p hp
    have h : (Except.ok ProvingSystemId.Groth16Bn254 : Except ParseError ProvingSystemId) = Except.ok p := by rw [← hp]; rfl
    injection h with h
    rw [← h]
    rfl
  by_cases h4 : s = "SP1"
  · subst h4
    refine ⟨iff_of_true rfl (by decide), ?_, fun hn => absurd (by decide) hn⟩
    intro p hp
    have h : (Except.ok ProvingSystemId.SP1 : Except ParseError ProvingSystemId) = Except.ok p := by rw [← hp]; rfl
    injection h with h
    rw [← h]
    rfl
  by_cases h5 : s = "Halo2IPA"
  · subst h5
    refine ⟨iff_of_true rfl (by decide), ?_, fun hn => absurd (by decide) hn⟩
    intro p hp
    have h : (Except.ok ProvingSystemId.Halo2IPA : Except ParseError ProvingSystemId) = Except.ok p := by rw [← hp]; rfl
    injection h with h
    rw [← h]
    rfl
  by_cases h6 : s = "Halo2KZG"
  · subst h6
    refine ⟨iff_of_true rfl (by decide), ?_, fun hn => absurd (by decide) hn⟩
    intro p hp
    have h : (Except.ok ProvingSystemId.Halo2KZG : Except ParseError ProvingSystemId) = Except.ok p := by rw [← hp]; rfl
    injection h with h
    rw [← h]
    rfl
  · have hparse : parse_proving_system s = Except.error (ParseError.InvalidProvingSystem s) := by
      simp [parse_proving_system, h1, h2, h3, h4, h5, h6]
    refine ⟨?_, ?_, fun _ => hparse⟩
    · rw [hparse]
      simp [provingSystemTags, h1, h2, h3, h4, h5, h6, Except.isOk, Except.toBool]
    · intro p hp
      rw [hparse] at hp
      exact absurd hp (by simp)

/-- Witness for C8 at the concrete tags "SP1" and "bogus". -/
theorem parse_proving_system_spec_witness :
    tagOf ProvingSystemId.SP1 = "SP1"
    ∧ parse_proving_system "bogus" = Except.error (ParseError.InvalidProvingSystem "bogus") :=
  ⟨(parse_proving_system_spec "SP1").2.1 ProvingSystemId.SP1 rfl,
   (parse_proving_system_spec "bogus").2.2 (by decide)⟩

/-! ## Submit-argument construction (`main.rs` 245-301) and the Submit arm (134-170) -/

/-- A file path, abstract. -/
abbrev Path := String

/-- Translation of `SubmitError` from the sdk's error taxonomy, as produced by the
construction path modelled here. -/
inductive SubmitError where
  | InvalidProvingSystem (tag : String)
  | MissingParameter (param : String)
  | IoError (path : Path)
deriving DecidableEq, Repr

/-- The submit-command arguments consumed by `verification_data_from_args`
(`SubmitArgs`, main.rs 55-92); the connection address, repetition count and
output directory play no role in the construction and are omitted;
`proof_generator_addr` is modelled already parsed (its `from_str` is out of
this claim's scope). -/
structure SubmitArgs where
  proving_system_flag : String
  proof_file_name : Path
  pub_input_file_name : Option Path
  verification_key_file_name : Option Path
  vm_program_code_file_name : Option Path
  proof_generator_addr : Bytes
deriving DecidableEq, Repr

/-- Translation of `read_file` (main.rs 294-296), over an abstract file system `fs`: a
missing or unreadable file is an `IoError` carrying the path. -/
def read_file (fs : Path → Option Bytes) (file_name : Path) : Except SubmitError Bytes :=
  match fs file_name with
  | some contents => Except.ok contents
  | none => Except.error (SubmitError.IoError file_name)

/-- Translation of `read_file_option` (main.rs 298-301): a missing path is a
`MissingParameter` error carrying the flag name; otherwise the file is read. -/
def read_file_option (fs : Path → Option Bytes) (param_name : String)
    (file_name : Option Path) : Except SubmitError Bytes :=
  match file_name with
  | none => Except.error (SubmitError.MissingParameter param_name)
  | some f => read_file fs f

/-- Translation of `verification_data_from_args` (main.rs 245-292): parses the proving-system
flag (the sdk's parser is not among the visible sources; it is modelled by the
same closed-tag-set parser, per spec §3, with its failure mapped to
`InvalidProvingSystem` as `main` does), reads the proof file, then per proving
system reads `--vm_program` (SP1) or `--vk` followed by `--public_input`
(all other variants), leaving the respectively unused optional fields `None`. -/
def verification_data_from_args (fs : Path → Option Bytes) (args : SubmitArgs) :
    Except SubmitError VerificationData :=
  match parse_proving_system args.proving_system_flag with
  | Except.error _ => Except.error (SubmitError.InvalidProvingSystem args.proving_system_flag)
  | Except.ok proving_system =>
    match read_file fs args.proof_file_name with
    | Except.error e => Except.error e
    | Except.ok proof =>
      match proving_system with
      | ProvingSystemId.SP1 =>
        (match read_file_option fs "--vm_program" args.vm_program_code_file_name with
         | Except.error e => Except.error e
         | Except.ok code =>
           Except.ok
             { proving_system := ProvingSystemId.SP1
               proof := proof
               pub_input := none
               verification_key := none
               vm_program_code := some code
               proof_generator_addr := args.proof_generator_addr })
      | ps =>
        (match read_file_option fs "--vk" args.verification_key_file_name with
         | Except.error e => Except.error e
         | Except.ok vk =>
           match read_file_option fs "--public_input" args.pub_input_file_name with
           | Except.error e => Except.error e
           | Except.ok pi =>
             Except.ok
               { proving_system := ps
                 proof := proof
                 pub_input := some pi
                 verification_key := some vk
                 vm_program_code := none
                 proof_generator_addr := args.proof_generator_addr })

/-- The successive effects of the `Submit` arm of `main` (main.rs 134-170), in
source order: open the websocket (`connect_async`), create the output
directory, build the `VerificationData` from the arguments, submit and await
responses, persist them. -/
inductive SubmitStep where
  | connectToBatcher
  | createOutputDir
  | buildVerificationData
  | sendAndAwaitResponses
  | persistResponses
deriving DecidableEq, Repr

/-- The order of the effects in the `Submit` arm of `main` (main.rs 134-170). -/
def submitSteps : List SubmitStep :=
  [SubmitStep.connectToBatcher, SubmitStep.createOutputDir,
   SubmitStep.buildVerificationData, SubmitStep.sendAndAwaitResponses,
   SubmitStep.persistResponses]

/-- An abstract file system holding only the sample proof file. -/
def sampleFs : Path → Option Bytes :=
  fun p => if p = "proof.bin" then some [1, 2] else none

/-- Submit arguments choosing SP1 but omitting `--vm_program`. -/
def sampleArgsNoVm : SubmitArgs :=
  { proving_system_flag := "SP1"
    proof_file_name := "proof.bin"
    pub_input_file_name := none
    verification_key_file_name := none
    vm_program_code_file_name := none
    proof_generator_addr := List.replicate 20 0 }

/-- Submit arguments choosing Groth16Bn254 but omitting `--vk`. -/
def sampleArgsNoVk : SubmitArgs :=
  { proving_system_flag := "Groth16Bn254"
    proof_file_name := "proof.bin"
    pub_input_file_name := some "pub.bin"
    verification_key_file_name := none
    vm_program_code_file_name := none
    proof_generator_addr := List.replicate 20 0 }

/-- C9 counterexample: the missing `--vm_program` for SP1 does yield a
`MissingParameter` error, but it is not detected before any network round
trip — in the `Submit` arm of `main` the websocket connection
(`connect_async`, a network handshake) is established strictly before
`verification_data_from_args` runs. -/
theorem missing_param_detected_after_connect :
    List.indexOf SubmitStep.connectToBatcher submitSteps
      < List.indexOf SubmitStep.buildVerificationData submitSteps
    ∧ verification_data_from_args sampleFs sampleArgsNoVm
      = Except.error (SubmitError.MissingParameter "--vm_program") := by
  constructor
  · decide
  · rfl

/-- Reduction of `verification_data_from_args` once the flag parses to SP1 and
the proof file is readable. -/
theorem vdfa_reduce_sp1 (fs : Path → Option Bytes) (args : SubmitArgs)
    (hparse : parse_proving_system args.proving_system_flag
      = Except.ok ProvingSystemId.SP1)
    (pb : Bytes) (hproof : fs args.proof_file_name = some pb) :
    verification_data_from_args fs args =
      (match read_file_option fs "--vm_program" args.vm_program_code_file_name with
       | Except.error e => Except.error e
       | Except.ok code =>
         Except.ok
           { proving_system := ProvingSystemId.SP1
             proof := pb
             pub_input := none
             verification_key := none
             vm_program_code := some code
             proof_generator_addr := args.proof_generator_addr }) := by
  simp [verification_data_from_args, hparse, read_file, hproof]

/-- Reduction of `verification_data_from_args` once the flag parses to a
non-SP1 system and the proof file is readable. -/
theorem vdfa_reduce_other (fs : Path → Option Bytes) (args : SubmitArgs)
    (p : ProvingSystemId)
    (hparse : parse_proving_system args.proving_system_flag = Except.ok p)
    (hne : p ≠ ProvingSystemId.SP1)
    (pb : Bytes) (hproof : fs args.proof_file_name = some pb) :
    verification_data_from_args fs args =
      (match read_file_option fs "--vk" args.verification_key_file_name with
       | Except.error e => Except.error e
       | Except.ok vk =>
         match read_file_option fs "--public_input" args.pub_input_file_name with
         | Except.error e => Except.error e
         | Except.ok pi =>
           Except.ok
             { proving_system := p
               proof := pb
               pub_input := some pi
               verification_key := some vk
               vm_program_code := none
               proof_generator_addr := args.proof_generator_addr }) := by
  cases p <;>
    first
    | exact absurd rfl hne
    | simp [verification_data_from_args, hparse, read_file, hproof]

/-- C9 amended: `verification_data_from_args` performs the claimed client-side
validation — for SP1 a missing `--vm_program` path yields
`MissingParameter "--vm_program"` and a successful construction leaves
`verification_key` and `pub_input` absent; for every other proving system a
missing `--vk` path yields `MissingParameter "--vk"`, a missing
`--public_input` path (with the verification key readable) yields
`MissingParameter "--public_input"`, and success leaves `vm_program_code`
absent — but this validation is not ordered before network activity: in the
current `Submit` flow the websocket connection is opened first. -/
theorem verification_data_from_args_spec (fs : Path → Option Bytes)
    (args : SubmitArgs) (pb : Bytes)
    (hproof : fs args.proof_file_name = some pb) :
    (parse_proving_system args.proving_system_flag = Except.ok ProvingSystemId.SP1 →
      (args.vm_program_code_file_name = none →
        verification_data_from_args fs args
          = Except.error (SubmitError.MissingParameter "--vm_program"))
      ∧ (∀ v, verification_data_from_args fs args = Except.ok v →
          v.verification_key = none ∧ v.pub_input = none))
    ∧ (∀ p, parse_proving_system args.proving_system_flag = Except.ok p →
        p ≠ ProvingSystemId.SP1 →
        (args.verification_key_file_name = none →
          verification_data_from_args fs args
            = Except.error (SubmitError.MissingParameter "--vk"))
        ∧ (∀ f c, args.verification_key_file_name = some f → fs f = some c →
            args.pub_input_file_name = none →
            verification_data_from_args fs args
              = Except.error (SubmitError.MissingParameter "--public_input"))
        ∧ (∀ v, verification_data_from_args fs args = Except.ok v →
            v.vm_program_code = none)) := by
  constructor
  · intro hparse
    rw [vdfa_reduce_sp1 fs args hparse pb hproof]
    constructor
    · intro hvm
      rw [hvm]
      rfl
    · intro v hv
      split at hv
      · exact absurd hv (by simp)
      · simp only [Except.ok.injEq] at hv
        rw [← hv]
        exact ⟨rfl, rfl⟩
  · intro p hparse hne
    rw [vdfa_reduce_other fs args p hparse hne pb hproof]
    refine ⟨?_, ?_, ?_⟩
    · intro hvk
      rw [hvk]
      rfl
    · intro f c hvk hf hpub
      rw [hvk, hpub]
      simp [read_file_option, read_file, hf]
    · intro v hv
      split at hv
      · exact absurd hv (by simp)
      · split at hv
        · exact absurd hv (by simp)
        · simp only [Except.ok.injEq] at hv
          rw [← hv]

/-- Witness for C9's amended theorem: Groth16 with a readable proof file but
no `--vk` path fails with `MissingParameter "--vk"`. -/
theorem verification_data_from_args_spec_witness :
    verification_data_from_args sampleFs sampleArgsNoVk
      = Except.error (SubmitError.MissingParameter "--vk") :=
  ((verification_data_from_args_spec sampleFs sampleArgsNoVk [1, 2] rfl).2
    ProvingSystemId.Groth16Bn254 rfl (by decide)).1 rfl

end Aligned
